import Mathlib

/-!
Verification development for the LoRa packet logger module
(src/lora_logger_module.c).  The definitions below are a shallow embedding
of the configuration translator (parse_SX1301_configuration,
parse_gateway_configuration), the frame classification switches of the
capture loop, the payload hex encoders, the log-rotation check, and the
loop's exit/cleanup skeleton.  Machine integers are modelled as Nat/Int
with explicit reduction modulo 2^32 where the C code casts to uint32_t.
-/

namespace LoraLogger

/-- Hardware status codes of the external radio library interface
(libloragw loragw_hal.h, an external collaborator of this module).  The
exact numeric values come from that header; the claims only depend on the
codes being the distinct constants the switch statements compare against. -/
def STAT_UNDEFINED : Nat := 0x00

def STAT_NO_CRC : Nat := 0x01

def STAT_CRC_BAD : Nat := 0x11

def STAT_CRC_OK : Nat := 0x10

/-- Modulation codes of the external radio library interface. -/
def MOD_UNDEFINED : Nat := 0x00

def MOD_LORA : Nat := 0x10

def MOD_FSK : Nat := 0x20

/-- Bandwidth codes of the external radio library interface. -/
def BW_UNDEFINED : Nat := 0

def BW_500KHZ : Nat := 0x01

def BW_250KHZ : Nat := 0x02

def BW_125KHZ : Nat := 0x03

def BW_62K5HZ : Nat := 0x04

def BW_31K2HZ : Nat := 0x05

def BW_15K6HZ : Nat := 0x06

def BW_7K8HZ : Nat := 0x07

/-- LoRa datarate codes of the external radio library interface. -/
def DR_UNDEFINED : Nat := 0

def DR_LORA_SF7 : Nat := 0x02

def DR_LORA_SF8 : Nat := 0x04

def DR_LORA_SF9 : Nat := 0x08

def DR_LORA_SF10 : Nat := 0x10

def DR_LORA_SF11 : Nat := 0x20

def DR_LORA_SF12 : Nat := 0x40

/-- Code-rate codes of the external radio library interface. -/
def CR_UNDEFINED : Nat := 0

def CR_LORA_4_5 : Nat := 0x01

def CR_LORA_4_6 : Nat := 0x02

def CR_LORA_4_7 : Nat := 0x03

def CR_LORA_4_8 : Nat := 0x04

/-- Value of (uint32_t)(-1), the sentinel the capture loop stores for an
unrecognized bandwidth, datarate or coderate enum. -/
def U32_MAX : Nat := 4294967295

/-- Truncating conversion of an integer to uint32_t, the de-facto
behaviour of the (uint32_t) casts applied to json_object_dotget_number
results (two's-complement truncation modulo 2^32). -/
def toU32 (n : Int) : Nat := (n % 4294967296).toNat

/-- Truncating conversion of an integer to int32_t, used for the (int32_t)
cast on the channels' IF-frequency fields (2147483648 = 2^31,
4294967296 = 2^32). -/
def toI32 (n : Int) : Int := (n + 2147483648) % 4294967296 - 2147483648

/-- Model of a parson JSON value as seen through the lookups the module
performs.  jnull stands both for an absent key (json_object_dotget_value
returning NULL) and for the JSON null literal: in both cases
json_value_get_type is not JSONBoolean / JSONNumber / JSONObject. -/
inductive JVal where
  | jnull : JVal
  | jbool (b : Bool) : JVal
  | jnum (n : Int) : JVal
  | jstr (s : String) : JVal
  deriving DecidableEq

/-- Combined json_value_get_type == JSONBoolean check plus
json_value_get_boolean read, as the module performs it: a non-boolean
value degrades to false (the module's explicit else branches). -/
def getBool : JVal → Bool
  | .jbool b => b
  | _ => false

/-- json_object_dotget_number semantics: parson returns 0 when the key is
absent or the value is not a number.  JSON numbers are modelled as
integers; the claims under consideration use integral values only. -/
def getNum : JVal → Int
  | .jnum n => n
  | _ => 0

/-- The fields of lgw_conf_rxif_s that the module assigns; zero
initialization (memset) gives enable=false and all numeric fields 0
(note BW_UNDEFINED = 0 and DR_UNDEFINED = 0). -/
structure IfConf where
  enable : Bool
  rf_chain : Nat
  freq_hz : Int
  bandwidth : Nat
  datarate : Nat
  deriving DecidableEq

/-- The memset-to-zero default lgw_conf_rxif_s. -/
def zeroIfConf : IfConf := ⟨false, 0, 0, 0, 0⟩

/-- Radio type enum of lgw_conf_rxrf_s; typeNone is the zero value left in
place when the configured type string matches neither known literal. -/
inductive RadioType where
  | typeNone : RadioType
  | sx1255 : RadioType
  | sx1257 : RadioType
  deriving DecidableEq

/-- The fields of lgw_conf_rxrf_s that the module assigns.  rssi_offset is
a float in C; the model restricts it to the integral JSON numbers the
claims use. -/
structure RfConf where
  enable : Bool
  freq_hz : Nat
  rssi_offset : Int
  type : RadioType
  tx_enable : Bool
  deriving DecidableEq

/-- The memset-to-zero default lgw_conf_rxrf_s. -/
def zeroRfConf : RfConf := ⟨false, 0, 0, .typeNone, false⟩

/-- A radio_i JSON section with the keys the module reads.  The type field
is modelled as an optional string (json_object_dotget_string returns NULL
for an absent or non-string value). -/
structure RadioSection where
  enable : JVal
  freq : JVal
  rssi_offset : JVal
  type : Option String
  tx_enable : JVal

/-- A chan_multiSF_i JSON section with the keys the module reads. -/
structure MultiChanSection where
  enable : JVal
  radio : JVal
  ifFreq : JVal

/-- The chan_Lora_std JSON section with the keys the module reads. -/
structure StdChanSection where
  enable : JVal
  radio : JVal
  ifFreq : JVal
  bandwidth : JVal
  spread_factor : JVal

/-- The chan_FSK JSON section with the keys the module reads. -/
structure FskChanSection where
  enable : JVal
  radio : JVal
  ifFreq : JVal
  bandwidth : JVal
  datarate : JVal

/-- Bandwidth switch of the LoRa standard channel (lines 264-272 of the
source): exact match on 500000 / 250000 / 125000, else BW_UNDEFINED. -/
def std_bw_map (bw : Nat) : Nat :=
  if bw = 500000 then BW_500KHZ
  else if bw = 250000 then BW_250KHZ
  else if bw = 125000 then BW_125KHZ
  else BW_UNDEFINED

/-- Spreading-factor switch of the LoRa standard channel (lines 274-288):
exact match on 7..12, else DR_UNDEFINED. -/
def std_sf_map (sf : Nat) : Nat :=
  if sf = 7 then DR_LORA_SF7
  else if sf = 8 then DR_LORA_SF8
  else if sf = 9 then DR_LORA_SF9
  else if sf = 10 then DR_LORA_SF10
  else if sf = 11 then DR_LORA_SF11
  else if sf = 12 then DR_LORA_SF12
  else DR_UNDEFINED

/-- Threshold chain of the FSK channel bandwidth (lines 314-321), an
ordered if/else ladder on the uint32 value. -/
def fsk_bw_map (bw : Nat) : Nat :=
  if bw ≤ 7800 then BW_7K8HZ
  else if bw ≤ 15600 then BW_15K6HZ
  else if bw ≤ 31200 then BW_31K2HZ
  else if bw ≤ 62500 then BW_62K5HZ
  else if bw ≤ 125000 then BW_125KHZ
  else if bw ≤ 250000 then BW_250KHZ
  else if bw ≤ 500000 then BW_500KHZ
  else BW_UNDEFINED

/-- Standard-channel bandwidth translation including the (uint32_t) cast
of the JSON number (line 263). -/
def chan_std_bandwidth (n : Int) : Nat := std_bw_map (toU32 n)

/-- Standard-channel spreading-factor translation including the (uint32_t)
cast of the JSON number (line 273). -/
def chan_std_sf (n : Int) : Nat := std_sf_map (toU32 n)

/-- FSK-channel bandwidth translation including the (uint32_t) cast of the
JSON number (line 313). -/
def chan_fsk_bandwidth (n : Int) : Nat := fsk_bw_map (toU32 n)

/-- Radio-chain translation step (lines 166-211).  The result is the
lgw_conf_rxrf_s submitted to lgw_rxrf_setconf for that chain, or none when
the section is absent: the loop body executes continue before reaching the
setconf call, so nothing is submitted for that chain. -/
def parse_radio : Option RadioSection → Option RfConf
  | none => none
  | some sec =>
    if getBool sec.enable = false then
      some zeroRfConf
    else
      some { enable := true
             freq_hz := toU32 (getNum sec.freq)
             rssi_offset := getNum sec.rssi_offset
             type := match sec.type with
                     | some s =>
                       if s.startsWith "SX1255" then .sx1255
                       else if s.startsWith "SX1257" then .sx1257
                       else .typeNone
                     | none => .typeNone
             tx_enable := getBool sec.tx_enable }

/-- Multi-SF channel translation step (lines 214-244).  none when the
section is absent (continue precedes the lgw_rxif_setconf call). -/
def parse_chan_multiSF : Option MultiChanSection → Option IfConf
  | none => none
  | some sec =>
    if getBool sec.enable = false then
      some zeroIfConf
    else
      some { zeroIfConf with
             enable := true
             rf_chain := toU32 (getNum sec.radio)
             freq_hz := toI32 (getNum sec.ifFreq) }

/-- LoRa standard channel translation step (lines 247-294).  none when the
section is absent: the lgw_rxif_setconf(8, ...) call sits inside the else
branch of the presence test, so nothing is submitted. -/
def parse_chan_Lora_std : Option StdChanSection → Option IfConf
  | none => none
  | some sec =>
    if getBool sec.enable = false then
      some zeroIfConf
    else
      some { enable := true
             rf_chain := toU32 (getNum sec.radio)
             freq_hz := toI32 (getNum sec.ifFreq)
             bandwidth := chan_std_bandwidth (getNum sec.bandwidth)
             datarate := chan_std_sf (getNum sec.spread_factor) }

/-- FSK channel translation step (lines 297-328).  none when the section
is absent: the lgw_rxif_setconf(9, ...) call sits inside the else branch
of the presence test, so nothing is submitted. -/
def parse_chan_FSK : Option FskChanSection → Option IfConf
  | none => none
  | some sec =>
    if getBool sec.enable = false then
      some zeroIfConf
    else
      some { enable := true
             rf_chain := toU32 (getNum sec.radio)
             freq_hz := toI32 (getNum sec.ifFreq)
             bandwidth := chan_fsk_bandwidth (getNum sec.bandwidth)
             datarate := toU32 (getNum sec.datarate) }

/-- Status column switch of the capture loop (lines 707-717); the value is
the exact quoted CSV fragment written by fputs, with the default branch
writing the ERR sentinel. -/
def statusField (st : Nat) : String :=
  if st = STAT_CRC_OK then "\"CRC_OK\" ,"
  else if st = STAT_CRC_BAD then "\"CRC_BAD\","
  else if st = STAT_NO_CRC then "\"NO_CRC\" ,"
  else if st = STAT_UNDEFINED then "\"UNDEF\"  ,"
  else "\"ERR\"    ,"

/-- Modulation column switch of the capture loop (lines 723-729). -/
def modulationField (md : Nat) : String :=
  if md = MOD_LORA then "\"LORA\","
  else if md = MOD_FSK then "\"FSK\" ,"
  else "\"ERR\" ,"

/-- Bandwidth classification switch of the capture loop (lines 732-751):
known codes map to their Hz value, BW_UNDEFINED to 0, anything else to the
uint32 value of -1. -/
def bandWidthOf (bw : Nat) : Nat :=
  if bw = BW_500KHZ then 500000
  else if bw = BW_250KHZ then 250000
  else if bw = BW_125KHZ then 125000
  else if bw = BW_62K5HZ then 62500
  else if bw = BW_31K2HZ then 31200
  else if bw = BW_15K6HZ then 15600
  else if bw = BW_7K8HZ then 7800
  else if bw = BW_UNDEFINED then 0
  else U32_MAX

/-- Datarate classification of the capture loop (lines 754-775): for LoRa
modulation a switch on the SF codes with the uint32 -1 sentinel as
default, for FSK the raw datarate, otherwise the sentinel. -/
def sfOf (modulation datarate : Nat) : Nat :=
  if modulation = MOD_LORA then
    if datarate = DR_LORA_SF7 then 7
    else if datarate = DR_LORA_SF8 then 8
    else if datarate = DR_LORA_SF9 then 9
    else if datarate = DR_LORA_SF10 then 10
    else if datarate = DR_LORA_SF11 then 11
    else if datarate = DR_LORA_SF12 then 12
    else U32_MAX
  else if modulation = MOD_FSK then datarate
  else U32_MAX

/-- Coderate classification switch of the capture loop (lines 778-791). -/
def codeRateOf (cr : Nat) : Nat :=
  if cr = CR_LORA_4_5 then 5
  else if cr = CR_LORA_4_6 then 6
  else if cr = CR_LORA_4_7 then 7
  else if cr = CR_LORA_4_8 then 8
  else if cr = CR_UNDEFINED then 0
  else U32_MAX

/-- One hex digit as printf %X renders it: 0-9 then uppercase A-F. -/
def hexDigit (n : Nat) : Char :=
  if n < 10 then Char.ofNat (48 + n) else Char.ofNat (55 + n)

/-- sprintf "%02X" of one payload byte (a uint8): two zero-padded
uppercase hex digits. -/
def byteHex (b : Nat) : List Char := [hexDigit (b / 16), hexDigit (b % 16)]

/-- Concatenation of the %02X renderings of a byte sequence. -/
def hexChars : List Nat → List Char
  | [] => []
  | b :: bs => byteHex b ++ hexChars bs

/-- Payload accumulation for the outbound record (lines 808-812): the loop
sprintf-s each byte as %02X and strcat-s it onto the payload buffer, which
is empty at the start of each frame (it is reset to the empty string at
line 830 after every send). -/
def payloadHex (bytes : List Nat) : String :=
  String.mk (bytes.foldl (fun acc b => acc ++ byteHex b) [])

/-- CSV payload encoding of the capture loop (lines 800-804): %02X per
byte with a dash before every byte whose index j satisfies j > 0 and
j % 4 = 0. -/
def csvHexChars : Nat → List Nat → List Char
  | _, [] => []
  | j, b :: bs =>
    (if 0 < j ∧ j % 4 = 0 then ['-'] else []) ++ byteHex b ++ csvHexChars (j + 1) bs

/-- CSV dash-grouped payload string. -/
def csvPayloadHex (bytes : List Nat) : String := String.mk (csvHexChars 0 bytes)

/-- Uppercase-hexadecimal character test ('0'-'9' or 'A'-'F'). -/
def isUpperHexChar (c : Char) : Bool :=
  (48 ≤ c.toNat && c.toNat ≤ 57) || (65 ≤ c.toNat && c.toNat ≤ 70)

/-- sprintf "%08X" of a uint32 value: exactly eight zero-padded uppercase
hex digits (a uint32 never needs more than eight). -/
def hex8 (v : Nat) : List Char :=
  [hexDigit (v / 16 ^ 7 % 16), hexDigit (v / 16 ^ 6 % 16),
   hexDigit (v / 16 ^ 5 % 16), hexDigit (v / 16 ^ 4 % 16),
   hexDigit (v / 16 ^ 3 % 16), hexDigit (v / 16 ^ 2 % 16),
   hexDigit (v / 16 % 16), hexDigit (v % 16)]

/-- GatewayIdentityString: sprintf(lgwm_str, "%08X%08X", (uint32_t)(lgwm
>> 32), (uint32_t)(lgwm & 0xFFFFFFFF)) at line 591 (4294967296 = 2^32). -/
def lgwm_str (lgwm : Nat) : String :=
  String.mk (hex8 (lgwm / 4294967296 % 4294967296) ++ hex8 (lgwm % 4294967296))

/-- Rotation condition at line 842: difftime(now_time, log_start_time) >
log_rotate_interval.  time_t values are modelled as integers; difftime of
integral time_t values is their exact difference. -/
def rotateDue (now log_start interval : Int) : Bool :=
  decide (now - log_start > interval)

/-- Rate-limited rotation check (lines 838-848): time_check is
incremented, and only when it reaches 8 is the clock read and the
rotation condition evaluated. -/
def rotationCheck (time_check : Nat) (now log_start interval : Int) : Bool :=
  if 8 ≤ time_check + 1 then rotateDue now log_start interval else false

/-- Result of one lgw_receive call: the dedicated error value
LGW_HAL_ERROR, or a batch of n packets (n = 0 meaning an empty batch). -/
inductive RecvResult where
  | halError : RecvResult
  | pkts (n : Nat) : RecvResult
  deriving DecidableEq

/-- Inputs observed by one iteration of the capture loop: the three flags
read by the while condition at line 665 and the lgw_receive outcome. -/
structure IterInput where
  quit_sig : Bool
  exit_sig : Bool
  stop : Bool
  recv : RecvResult

/-- Observable outcome of the process once the capture loop has ended:
the exit status, whether the exit path performed fclose(log_file), and
whether it performed lgw_stop(). -/
structure Final where
  status : Nat
  logClosed : Bool
  lgwStopped : Bool
  deriving DecidableEq

/-- Loop outcome: done when the loop ended within the supplied inputs,
running when the input list was exhausted while the loop would continue. -/
inductive RunResult where
  | done (f : Final) : RunResult
  | running : RunResult
  deriving DecidableEq

/-- Exit/cleanup skeleton of the capture loop (lines 665-849 and 923-950).
When any of quit_sig, exit_sig or stop is observed, the while condition
fails and control falls through to the single cleanup block, which always
runs lgw_stop() and fclose(log_file) and returns 0.  When lgw_receive
returns LGW_HAL_ERROR, main returns EXIT_FAILURE from inside the loop,
reaching neither fclose nor lgw_stop.  Otherwise the iteration processes
its batch (irrelevant to the exit observables) and the loop repeats. -/
def runLoop : List IterInput → RunResult
  | [] => .running
  | it :: rest =>
    if it.quit_sig || it.exit_sig || it.stop then
      .done ⟨0, true, true⟩
    else
      match it.recv with
      | .halError => .done ⟨1, false, false⟩
      | .pkts _ => runLoop rest

/-! Helper lemmas. -/

/-- A JSON value other than the boolean true reads as false through the
module's type-checked boolean fetch. -/
theorem getBool_of_ne_true {v : JVal} (h : v ≠ JVal.jbool true) :
    getBool v = false := by
  cases v with
  | jbool b =>
    cases b with
    | true => exact absurd rfl h
    | false => rfl
  | jnull => rfl
  | jnum n => rfl
  | jstr s => rfl

/-- Hex digits of nibbles are uppercase-hexadecimal characters. -/
theorem hexDigit_upperHex : ∀ m : Nat, m < 16 → isUpperHexChar (hexDigit m) = true := by
  decide

/-- Every character of an eight-digit %08X rendering is uppercase hex. -/
theorem hex8_chars (v : Nat) : ∀ c ∈ hex8 v, isUpperHexChar c = true := by
  intro c hc
  simp only [hex8, List.mem_cons, List.not_mem_nil, or_false] at hc
  rcases hc with h | h | h | h | h | h | h | h <;>
    (subst h; exact hexDigit_upperHex _ (Nat.mod_lt _ (by norm_num)))

/-- The strcat fold of %02X renderings equals the accumulator followed by
the plain concatenation of the renderings. -/
theorem hexChars_foldl (bytes : List Nat) :
    ∀ acc : List Char,
      bytes.foldl (fun a b => a ++ byteHex b) acc = acc ++ hexChars bytes := by
  induction bytes with
  | nil => intro acc; simp [hexChars]
  | cons b bs ih => intro acc; simp [hexChars, ih, List.append_assoc]

/-- The contiguous hex rendering has two characters per byte. -/
theorem hexChars_length (bytes : List Nat) :
    (hexChars bytes).length = 2 * bytes.length := by
  induction bytes with
  | nil => rfl
  | cons b bs ih => simp [hexChars, byteHex, ih]; omega

/-- Every character of the contiguous hex rendering of uint8 bytes is
uppercase hex. -/
theorem hexChars_mem (bytes : List Nat) (hb : ∀ b ∈ bytes, b < 256) :
    ∀ c ∈ hexChars bytes, isUpperHexChar c = true := by
  induction bytes with
  | nil => intro c hc; simp [hexChars] at hc
  | cons b bs ih =>
    intro c hc
    have hb0 : b < 256 := hb b (by simp)
    simp only [hexChars, byteHex, List.cons_append, List.nil_append,
      List.mem_cons] at hc
    rcases hc with h | h | h
    · subst h; exact hexDigit_upperHex _ (by omega)
    · subst h; exact hexDigit_upperHex _ (Nat.mod_lt _ (by norm_num))
    · exact ih (fun x hx => hb x (by simp [hx])) c h

/-- The CSV dash-grouped rendering of more than four bytes contains a
dash (inserted before the fifth byte). -/
theorem csv_dash (bytes : List Nat) (h : 4 < bytes.length) :
    ('-' : Char) ∈ csvHexChars 0 bytes := by
  rcases bytes with _ | ⟨b1, _ | ⟨b2, _ | ⟨b3, _ | ⟨b4, _ | ⟨b5, rest⟩⟩⟩⟩⟩ <;>
    simp_all [csvHexChars, byteHex]

/-! Claim theorems. -/

/-- C1: the claim says that with a negative rotation interval (in
particular -1) the rotation check never rotates the log.  The code has no
explicit negative-interval guard: at line 842 it evaluates
difftime(now, log_start) > log_rotate_interval, and a non-negative
elapsed time always exceeds -1, so the check fires (and the log is closed
and reopened) at the very first rate-limited evaluation.  This theorem
evaluates the embedded check at the failing input: elapsed time 0,
interval -1, time_check reaching 8. -/
theorem c1_negative_interval_rotation_fires :
    rotationCheck 7 1000 1000 (-1) = true ∧ rotateDue 0 0 (-1) = true := by
  decide

/-- C2 counterexample: the claim says an absent radio-chain or channel
section still leads to a zeroed structure being submitted to the front
end.  In the code an absent radio section makes the loop body continue
before lgw_rxrf_setconf, and an absent chan_Lora_std section skips the
lgw_rxif_setconf(8, ...) call entirely, so nothing is submitted. -/
theorem c2_absent_section_not_submitted_cex :
    parse_radio none = none ∧ parse_radio none ≠ some zeroRfConf ∧
    parse_chan_Lora_std none = none ∧ parse_chan_Lora_std none ≠ some zeroIfConf := by
  refine ⟨rfl, ?_, rfl, ?_⟩ <;> simp [parse_radio, parse_chan_Lora_std]

/-- C2 amended: for every radio-chain or channel section absent from the
configuration document, the translator prepares a zero-initialized
structure but submits nothing at all for that section (the setconf call
is skipped), and it never raises an error for the absence. -/
theorem c2_absent_sections_skip_submission :
    parse_radio none = none ∧ parse_chan_multiSF none = none ∧
    parse_chan_Lora_std none = none ∧ parse_chan_FSK none = none :=
  ⟨rfl, rfl, rfl, rfl⟩

/-- C3: the claim says that on the immediate shutdown class (quit_sig)
the loop stops without any further hardware shutdown call, while only
graceful exit closes the log and releases the front end.  The code has a
single exit path: whatever flag ends the while loop, control falls
through to the cleanup block that calls lgw_stop() and fclose(log_file).
This theorem evaluates the loop at the failing input (quit_sig set): the
outcome records lgwStopped = true and logClosed = true, identical to the
graceful exit_sig outcome shown in the second conjunct. -/
theorem c3_quit_sig_still_stops_frontend :
    runLoop [⟨true, false, false, .pkts 0⟩] = .done ⟨0, true, true⟩ ∧
    runLoop [⟨false, true, false, .pkts 0⟩] = .done ⟨0, true, true⟩ := by
  decide

/-- C10: when lgw_receive returns its dedicated error value during the
capture loop, main returns EXIT_FAILURE immediately from inside the loop,
reaching neither the fclose of the current log file nor the lgw_stop call
of the normal-exit cleanup block. -/
theorem c10_receive_error_exits_without_cleanup
    (it : IterInput) (rest : List IterInput)
    (hq : it.quit_sig = false) (he : it.exit_sig = false) (hs : it.stop = false)
    (hr : it.recv = .halError) :
    runLoop (it :: rest) = .done ⟨1, false, false⟩ := by
  simp [runLoop, hq, he, hs, hr]

/-- Witness for C10 at a concrete iteration input. -/
theorem c10_receive_error_witness :
    runLoop [⟨false, false, false, .halError⟩] = .done ⟨1, false, false⟩ :=
  c10_receive_error_exits_without_cleanup _ _ rfl rfl rfl rfl

/-- C4: frame classification is a total function with no failure path:
every hardware enum value outside the known set maps to the corresponding
sentinel (the quoted ERR fragment for status and modulation, the uint32
value of -1 for bandwidth, datarate and coderate) instead of raising an
error or halting.  Totality is structural: each classifier below is a
total function returning a plain value, with no error channel. -/
theorem c4_classification_unknown_to_sentinel (st md bw dr cr : Nat) :
    (st ≠ STAT_CRC_OK → st ≠ STAT_CRC_BAD → st ≠ STAT_NO_CRC →
      st ≠ STAT_UNDEFINED → statusField st = "\"ERR\"    ,") ∧
    (md ≠ MOD_LORA → md ≠ MOD_FSK → modulationField md = "\"ERR\" ,") ∧
    (bw ≠ BW_500KHZ → bw ≠ BW_250KHZ → bw ≠ BW_125KHZ → bw ≠ BW_62K5HZ →
      bw ≠ BW_31K2HZ → bw ≠ BW_15K6HZ → bw ≠ BW_7K8HZ → bw ≠ BW_UNDEFINED →
      bandWidthOf bw = U32_MAX) ∧
    (md = MOD_LORA → dr ≠ DR_LORA_SF7 → dr ≠ DR_LORA_SF8 → dr ≠ DR_LORA_SF9 →
      dr ≠ DR_LORA_SF10 → dr ≠ DR_LORA_SF11 → dr ≠ DR_LORA_SF12 →
      sfOf md dr = U32_MAX) ∧
    (md ≠ MOD_LORA → md ≠ MOD_FSK → sfOf md dr = U32_MAX) ∧
    (cr ≠ CR_LORA_4_5 → cr ≠ CR_LORA_4_6 → cr ≠ CR_LORA_4_7 → cr ≠ CR_LORA_4_8 →
      cr ≠ CR_UNDEFINED → codeRateOf cr = U32_MAX) := by
  refine ⟨?_, ?_, ?_, ?_, ?_, ?_⟩ <;> intros <;>
    simp_all [statusField, modulationField, bandWidthOf, sfOf, codeRateOf]

/-- Witness for C4 at concrete unknown enum values. -/
theorem c4_classification_witness :
    statusField 3 = "\"ERR\"    ," ∧ modulationField 3 = "\"ERR\" ," ∧
    bandWidthOf 99 = U32_MAX ∧ sfOf MOD_LORA 3 = U32_MAX ∧
    sfOf 3 5 = U32_MAX ∧ codeRateOf 99 = U32_MAX :=
  ⟨(c4_classification_unknown_to_sentinel 3 3 99 3 99).1
      (by decide) (by decide) (by decide) (by decide),
   (c4_classification_unknown_to_sentinel 3 3 99 3 99).2.1 (by decide) (by decide),
   (c4_classification_unknown_to_sentinel 3 3 99 3 99).2.2.1
      (by decide) (by decide) (by decide) (by decide)
      (by decide) (by decide) (by decide) (by decide),
   (c4_classification_unknown_to_sentinel 3 MOD_LORA 99 3 99).2.2.2.1
      rfl (by decide) (by decide) (by decide) (by decide) (by decide) (by decide),
   (c4_classification_unknown_to_sentinel 3 3 99 5 99).2.2.2.2.1
      (by decide) (by decide),
   (c4_classification_unknown_to_sentinel 3 3 99 3 99).2.2.2.2.2
      (by decide) (by decide) (by decide) (by decide) (by decide)⟩

/-- C6 counterexample: the claim says every bandwidth value exceeding
500000 maps to Undefined, but the value first passes through the
(uint32_t) cast at line 313: 4294967296 (= 2^32, exceeding 500000)
truncates to 0, which the threshold ladder maps to the 7.8 kHz tier. -/
theorem c6_fsk_bandwidth_overflow_cex :
    (500000 : Int) < 4294967296 ∧
    chan_fsk_bandwidth 4294967296 = BW_7K8HZ ∧ BW_7K8HZ ≠ BW_UNDEFINED := by
  refine ⟨by norm_num, by decide, by decide⟩

/-- C6 amended: each bandwidth integer of the listed set maps to its
exact tier; every value v with 500000 < v < 2^32, and every negative v
whose uint32 truncation exceeds 500000 (all v with
500000 - 2^32 < v < 0), maps to Undefined.  Values outside (-2^32, 2^32)
are first reduced by the uint32 cast and follow the ladder on the reduced
value. -/
theorem c6_fsk_bandwidth_tiers (n : Int) :
    (chan_fsk_bandwidth 7800 = BW_7K8HZ ∧ chan_fsk_bandwidth 15600 = BW_15K6HZ ∧
     chan_fsk_bandwidth 31200 = BW_31K2HZ ∧ chan_fsk_bandwidth 62500 = BW_62K5HZ ∧
     chan_fsk_bandwidth 125000 = BW_125KHZ ∧ chan_fsk_bandwidth 250000 = BW_250KHZ ∧
     chan_fsk_bandwidth 500000 = BW_500KHZ) ∧
    (500000 < n → n < 4294967296 → chan_fsk_bandwidth n = BW_UNDEFINED) ∧
    (-4294467296 < n → n < 0 → chan_fsk_bandwidth n = BW_UNDEFINED) := by
  refine ⟨by decide, ?_, ?_⟩
  · intro h1 h2
    have ht : 500000 < toU32 n := by unfold toU32; omega
    simp only [chan_fsk_bandwidth, fsk_bw_map, BW_7K8HZ, BW_15K6HZ, BW_31K2HZ,
      BW_62K5HZ, BW_125KHZ, BW_250KHZ, BW_500KHZ, BW_UNDEFINED]
    split_ifs <;> omega
  · intro h1 h2
    have ht : 500000 < toU32 n := by unfold toU32; omega
    simp only [chan_fsk_bandwidth, fsk_bw_map, BW_7K8HZ, BW_15K6HZ, BW_31K2HZ,
      BW_62K5HZ, BW_125KHZ, BW_250KHZ, BW_500KHZ, BW_UNDEFINED]
    split_ifs <;> omega

/-- Witness for C6 at a concrete over-threshold and a concrete negative
bandwidth value. -/
theorem c6_fsk_bandwidth_witness :
    chan_fsk_bandwidth 600000 = BW_UNDEFINED ∧
    chan_fsk_bandwidth (-1) = BW_UNDEFINED :=
  ⟨(c6_fsk_bandwidth_tiers 600000).2.1 (by norm_num) (by norm_num),
   (c6_fsk_bandwidth_tiers (-1)).2.2 (by norm_num) (by norm_num)⟩

/-- C7 counterexample: the claim says every spreading-factor integer
outside 7..12 yields Undefined, but the value first passes through the
(uint32_t) cast at line 273: 4294967303 (= 2^32 + 7, not in 7..12)
truncates to 7 and maps to the SF7 datarate. -/
theorem c7_std_sf_overflow_cex :
    (12 : Int) < 4294967303 ∧
    chan_std_sf 4294967303 = DR_LORA_SF7 ∧ DR_LORA_SF7 ≠ DR_UNDEFINED := by
  refine ⟨by norm_num, by decide, by decide⟩

/-- C7 amended: spreading-factor integers 7..12 map exactly to their
datarate codes; every other integer in the uint32 range [0, 2^32) yields
Undefined.  Integers outside that range are first truncated by the uint32
cast and follow the exact-match table on the truncated value. -/
theorem c7_std_sf_exact (n : Int) :
    (chan_std_sf 7 = DR_LORA_SF7 ∧ chan_std_sf 8 = DR_LORA_SF8 ∧
     chan_std_sf 9 = DR_LORA_SF9 ∧ chan_std_sf 10 = DR_LORA_SF10 ∧
     chan_std_sf 11 = DR_LORA_SF11 ∧ chan_std_sf 12 = DR_LORA_SF12) ∧
    (0 ≤ n → n < 4294967296 → n ≠ 7 → n ≠ 8 → n ≠ 9 → n ≠ 10 → n ≠ 11 →
      n ≠ 12 → chan_std_sf n = DR_UNDEFINED) := by
  refine ⟨by decide, ?_⟩
  intro h0 h1 h7 h8 h9 h10 h11 h12
  have t7 : toU32 n ≠ 7 := by unfold toU32; omega
  have t8 : toU32 n ≠ 8 := by unfold toU32; omega
  have t9 : toU32 n ≠ 9 := by unfold toU32; omega
  have t10 : toU32 n ≠ 10 := by unfold toU32; omega
  have t11 : toU32 n ≠ 11 := by unfold toU32; omega
  have t12 : toU32 n ≠ 12 := by unfold toU32; omega
  simp only [chan_std_sf, std_sf_map]
  rw [if_neg t7, if_neg t8, if_neg t9, if_neg t10, if_neg t11, if_neg t12]

/-- Witness for C7 at a concrete unrecognized spreading factor. -/
theorem c7_std_sf_witness : chan_std_sf 13 = DR_UNDEFINED :=
  (c7_std_sf_exact 13).2 (by norm_num) (by norm_num) (by norm_num) (by norm_num)
    (by norm_num) (by norm_num) (by norm_num) (by norm_num)

/-- C9: a channel section that is present but whose enable field is the
boolean false or not a boolean at all short-circuits: no further
sub-field of the section influences the result, and the zero-initialized
disabled structure is still submitted to the front end.  The sections are
universally quantified, so the remaining sub-fields are arbitrary and
provably unread. -/
theorem c9_disabled_channel_zeroed_and_submitted
    (s1 : MultiChanSection) (s2 : StdChanSection) (s3 : FskChanSection)
    (h1 : s1.enable ≠ JVal.jbool true) (h2 : s2.enable ≠ JVal.jbool true)
    (h3 : s3.enable ≠ JVal.jbool true) :
    parse_chan_multiSF (some s1) = some zeroIfConf ∧
    parse_chan_Lora_std (some s2) = some zeroIfConf ∧
    parse_chan_FSK (some s3) = some zeroIfConf := by
  refine ⟨?_, ?_, ?_⟩ <;>
    simp [parse_chan_multiSF, parse_chan_Lora_std, parse_chan_FSK,
      getBool_of_ne_true h1, getBool_of_ne_true h2, getBool_of_ne_true h3]

/-- Witness for C9 at concrete sections: enable is false (or a number)
while the other sub-fields hold arbitrary junk values. -/
theorem c9_disabled_channel_witness :
    parse_chan_multiSF (some ⟨JVal.jbool false, JVal.jnum 3, JVal.jnum 7⟩) =
      some zeroIfConf ∧
    parse_chan_Lora_std
        (some ⟨JVal.jnum 1, JVal.jnum 3, JVal.jnum 7, JVal.jnum 250000,
               JVal.jnum 8⟩) = some zeroIfConf ∧
    parse_chan_FSK
        (some ⟨JVal.jbool false, JVal.jnum 2, JVal.jnum 5, JVal.jnum 125000,
               JVal.jnum 50000⟩) = some zeroIfConf :=
  c9_disabled_channel_zeroed_and_submitted _ _ _ (by decide) (by decide) (by decide)

/-- C5: the outbound structured record's payload field is the contiguous
uppercase hexadecimal rendering of the frame's payload bytes with no
separator: exactly 2 * sizeBytes characters, every character an uppercase
hex digit, and (for frames longer than four bytes) distinct from the
CSV's dash-grouped rendering of the same bytes. -/
theorem c5_payload_hex_contiguous (bytes : List Nat)
    (hb : ∀ b ∈ bytes, b < 256) :
    (payloadHex bytes).length = 2 * bytes.length ∧
    (∀ c ∈ (payloadHex bytes).data, isUpperHexChar c = true) ∧
    (4 < bytes.length → payloadHex bytes ≠ csvPayloadHex bytes) := by
  have hdata : (payloadHex bytes).data = hexChars bytes := by
    simp [payloadHex, hexChars_foldl]
  have hlen : (payloadHex bytes).length = (payloadHex bytes).data.length := rfl
  refine ⟨?_, ?_, ?_⟩
  · rw [hlen, hdata, hexChars_length]
  · intro c hc
    rw [hdata] at hc
    exact hexChars_mem bytes hb c hc
  · intro h4 heq
    have hd : (payloadHex bytes).data = (csvPayloadHex bytes).data :=
      congrArg String.data heq
    have hdash : ('-' : Char) ∈ (payloadHex bytes).data := by
      rw [hd]
      exact csv_dash bytes h4
    rw [hdata] at hdash
    have := hexChars_mem bytes hb _ hdash
    exact absurd this (by decide)

/-- Witness for C5 at a concrete five-byte payload: exactly ten
characters, and the encoding differs from the CSV's dash-grouped form. -/
theorem c5_payload_hex_witness :
    (payloadHex [222, 173, 190, 239, 1]).length = 10 ∧
    payloadHex [222, 173, 190, 239, 1] ≠ csvPayloadHex [222, 173, 190, 239, 1] := by
  have h := c5_payload_hex_contiguous [222, 173, 190, 239, 1] (by decide)
  exact ⟨by simpa using h.1, h.2.2 (by decide)⟩

/-- C8: for every 64-bit gateway identity value, the derived identity
string is exactly 16 characters, all of them uppercase hexadecimal
digits: both 32-bit halves are zero-padded to 8 hex digits by the %08X
conversions (18446744073709551616 = 2^64). -/
theorem c8_gateway_identity_sixteen_hex (n : Nat)
    (_h : n < 18446744073709551616) :
    (lgwm_str n).length = 16 ∧
    ∀ c ∈ (lgwm_str n).data, isUpperHexChar c = true := by
  constructor
  · rfl
  · intro c hc
    have hc2 : c ∈ hex8 (n / 4294967296 % 4294967296) ++ hex8 (n % 4294967296) := hc
    rcases List.mem_append.mp hc2 with h' | h'
    · exact hex8_chars _ c h'
    · exact hex8_chars _ c h'

/-- Witness for C8 at a small concrete identity value: zero padding keeps
the string at 16 characters. -/
theorem c8_gateway_identity_witness :
    (lgwm_str 5).length = 16 ∧ ∀ c ∈ (lgwm_str 5).data, isUpperHexChar c = true :=
  c8_gateway_identity_sixteen_hex 5 (by norm_num)

end LoraLogger
